import Mathlib

/-!
Shallow embedding of the animal OOP demo (src/src/main.rs).

Modelling conventions:
* Rust `String` / `&str` become Lean `String`.
* Rust `u8` / `u32` fields carry no arithmetic in this program, so they are
  modelled as `Nat` (every machine value maps to its numeric value; no
  wraparound can occur because nothing computes with them).
* The mutating setter `Dog::set_age(&mut self, u8)` becomes an explicit
  state-passing function `Dog.set_age : Dog → Nat → Dog` returning the
  updated state; it returns nothing else, mirroring the `()` return type.
* `str::to_uppercase` is modelled character-wise with `Char.toUpper`,
  matching the Rust behaviour on the ASCII data this program uses.
* Rust traits become type classes; the default trait methods `describe`
  and `swim` become class fields with default values, and no instance
  overrides `describe`, exactly as in the source.
* A trait object `&dyn Animal` is modelled as a packaged existential
  `DynAnimal` (carrier type, its `Animal` instance, the value), and
  dynamic dispatch as projection through that package.
-/

/-- The `Animal` trait: `speak` and `name` are mandatory, `describe` has a
default body composing them, as in the source trait. -/
class Animal (α : Type) where
  speak : α → String
  name : α → String
  describe : α → String := fun a => name a ++ (" says: " ++ speak a)

/-- The `Swimmer` trait with its default `swim` body. -/
class Swimmer (α : Type) where
  swim : α → String := fun _ => "Swimming..."

/-- The `Dog` struct: private fields name, age (u8, modelled as Nat), breed. -/
structure Dog where
  name : String
  age : Nat
  breed : String

/-- `Dog::new`: stores all three arguments verbatim, no validation. -/
def Dog.new (name : String) (age : Nat) (breed : String) : Dog :=
  ⟨name, age, breed⟩

/-- `Dog::get_age`: returns the current age. -/
def Dog.get_age (d : Dog) : Nat :=
  d.age

/-- `Dog::set_age`: updates the age only when the new value is at most 25,
otherwise leaves the state unchanged. -/
def Dog.set_age (d : Dog) (age : Nat) : Dog :=
  if age ≤ 25 then ⟨d.name, age, d.breed⟩ else d

/-- `Dog::format_breed` (private helper): the breed upper-cased. -/
def Dog.format_breed (d : Dog) : String :=
  ⟨d.breed.data.map Char.toUpper⟩

instance : Animal Dog where
  speak d := "Woof! I\x27m a " ++ d.format_breed
  name d := d.name

/-- The `Cat` struct: name and the indoor flag. -/
structure Cat where
  name : String
  indoor : Bool

/-- `Cat::new`. -/
def Cat.new (name : String) (indoor : Bool) : Cat :=
  ⟨name, indoor⟩

instance : Animal Cat where
  speak c := if c.indoor then "Meow~ (comfortable purr)" else "MEOW! (street cat attitude)"
  name c := c.name

/-- The `Duck` struct: name only. -/
structure Duck where
  name : String

/-- `Duck::new`. -/
def Duck.new (name : String) : Duck :=
  ⟨name⟩

instance : Animal Duck where
  speak _ := "Quack quack!"
  name u := u.name

instance : Swimmer Duck where
  swim u := u.name ++ " paddles gracefully across the pond"

/-- The `AnimalBase` struct embedded by `Horse`. -/
structure AnimalBase where
  name : String
  legs : Nat

/-- `AnimalBase::new`. -/
def AnimalBase.new (name : String) (legs : Nat) : AnimalBase :=
  ⟨name, legs⟩

/-- `AnimalBase::walk`: the walking sentence built from name and leg count. -/
def AnimalBase.walk (b : AnimalBase) : String :=
  b.name ++ (" walks on " ++ (toString b.legs ++ " legs"))

/-- The `Horse` struct: an embedded `AnimalBase` plus a speed. -/
structure Horse where
  base : AnimalBase
  speed_mph : Nat

/-- `Horse::new`: builds the embedded base with leg count fixed to 4. -/
def Horse.new (name : String) (speed_mph : Nat) : Horse :=
  ⟨AnimalBase.new name 4, speed_mph⟩

/-- `Horse::walk`: delegates verbatim to the embedded base. -/
def Horse.walk (h : Horse) : String :=
  h.base.walk

/-- `Horse::gallop`: extended behaviour not present on the base. -/
def Horse.gallop (h : Horse) : String :=
  h.base.name ++ (" gallops at " ++ (toString h.speed_mph ++ " mph!"))

instance : Animal Horse where
  speak _ := "Neigh!"
  name h := h.base.name

/-- A trait object `&dyn Animal`: a carrier type packaged with its `Animal`
instance and a value of that type. -/
structure DynAnimal where
  carrier : Type
  inst : Animal carrier
  val : carrier

/-- Dynamic dispatch of `speak` through a trait object. -/
def DynAnimal.speak (o : DynAnimal) : String :=
  @Animal.speak o.carrier o.inst o.val

/-- Dynamic dispatch of `describe` through a trait object. -/
def DynAnimal.describe (o : DynAnimal) : String :=
  @Animal.describe o.carrier o.inst o.val

/-- Coercion of a `Dog` into a trait object. -/
def Dog.toDyn (d : Dog) : DynAnimal :=
  ⟨Dog, inferInstance, d⟩

/-- Coercion of a `Cat` into a trait object. -/
def Cat.toDyn (c : Cat) : DynAnimal :=
  ⟨Cat, inferInstance, c⟩

/-- Coercion of a `Duck` into a trait object. -/
def Duck.toDyn (u : Duck) : DynAnimal :=
  ⟨Duck, inferInstance, u⟩

/-- Coercion of a `Horse` into a trait object. -/
def Horse.toDyn (h : Horse) : DynAnimal :=
  ⟨Horse, inferInstance, h⟩

/-- `introduce_animal`: the line printed for a trait object (dynamic dispatch). -/
def introduce_animal (o : DynAnimal) : String :=
  "  " ++ o.describe

/-- `make_sound`: the line printed for a statically typed animal (static
dispatch through a generic function). -/
def make_sound {α : Type} [Animal α] (a : α) : String :=
  "  Sound: " ++ Animal.speak a

/-- C1: for every Dog and age a, if a ≤ 25 then after set_age a, get_age
returns a; if a > 25 then get_age returns the value it returned before the
call. -/
theorem dog_set_age_then_get_age (d : Dog) (a : Nat) :
    (a ≤ 25 → (d.set_age a).get_age = a) ∧ (25 < a → (d.set_age a).get_age = d.get_age) := by
  constructor
  · intro h
    simp [Dog.set_age, Dog.get_age, h]
  · intro h
    simp [Dog.set_age, Dog.get_age, Nat.not_le.mpr h]

/-- Witness for C1 at name Rex, initial age 5: setting 6 yields 6, setting
100 leaves the previous value 5. -/
theorem dog_set_age_then_get_age_witness :
    ((Dog.new "Rex" 5 "German Shepherd").set_age 6).get_age = 6 ∧
    ((Dog.new "Rex" 5 "German Shepherd").set_age 100).get_age = 5 :=
  ⟨(dog_set_age_then_get_age (Dog.new "Rex" 5 "German Shepherd") 6).1 (by decide),
   (dog_set_age_then_get_age (Dog.new "Rex" 5 "German Shepherd") 100).2 (by decide)⟩

/-- C2: for every Dog and age a > 25, set_age a leaves the whole Dog state,
all three fields included, unchanged; the function returns only that state,
so nothing is surfaced to the caller. -/
theorem dog_set_age_silent_reject (d : Dog) (a : Nat) (h : 25 < a) :
    d.set_age a = d := by
  simp [Dog.set_age, Nat.not_le.mpr h]

/-- Witness for C2: the rejected update with age 100 returns the Dog
unchanged. -/
theorem dog_set_age_silent_reject_witness :
    (Dog.new "Rex" 5 "German Shepherd").set_age 100 = Dog.new "Rex" 5 "German Shepherd" :=
  dog_set_age_silent_reject (Dog.new "Rex" 5 "German Shepherd") 100 (by decide)

/-- C3 counterexample: the claimed invariant fails as stated, because
Dog.new performs no validation; constructing with age 100 gives a reachable
Dog whose get_age exceeds 25. -/
theorem dog_age_invariant_counterexample :
    ¬ (Dog.new "Rex" 100 "German Shepherd").get_age ≤ 25 := by decide

/-- C3 (amended): for every Dog whose age is at most 25, every sequence of
set_age calls keeps get_age at most 25 (get_age itself never changes
state). -/
theorem dog_age_invariant_from_valid_init (d : Dog) (h : d.get_age ≤ 25) (updates : List Nat) :
    (updates.foldl Dog.set_age d).get_age ≤ 25 := by
  induction updates generalizing d with
  | nil => exact h
  | cons a rest ih =>
      apply ih
      by_cases ha : a ≤ 25
      · simp [Dog.set_age, Dog.get_age, ha]
      · simp [Dog.set_age, Dog.get_age, ha]
        exact h

/-- Witness for amended C3: starting from age 5, the update sequence
6, 100, 3 keeps the age within the bound. -/
theorem dog_age_invariant_from_valid_init_witness :
    (([6, 100, 3] : List Nat).foldl Dog.set_age (Dog.new "Rex" 5 "German Shepherd")).get_age ≤ 25 :=
  dog_age_invariant_from_valid_init (Dog.new "Rex" 5 "German Shepherd") (by decide) [6, 100, 3]

/-- C4: for every Dog, speak returns the text Woof-I-am-a followed by the
breed upper-cased; in particular at Rex, 5, German Shepherd the result is
the fully upper-cased sentence. -/
theorem dog_speak_uppercased_breed :
    (∀ (n : String) (a : Nat) (b : String),
      Animal.speak (Dog.new n a b) = "Woof! I\x27m a " ++ String.mk (b.data.map Char.toUpper)) ∧
    Animal.speak (Dog.new "Rex" 5 "German Shepherd") = "Woof! I\x27m a GERMAN SHEPHERD" :=
  ⟨fun _ _ _ => rfl, rfl⟩

/-- C5: Cat speak depends on nothing but the indoor flag, returning the purr
string when the flag is true and the street-cat string when it is false. -/
theorem cat_speak_depends_only_on_indoor :
    (∀ c : Cat,
      Animal.speak c =
        if c.indoor then "Meow~ (comfortable purr)" else "MEOW! (street cat attitude)") ∧
    Animal.speak (Cat.new "Whiskers" true) = "Meow~ (comfortable purr)" ∧
    Animal.speak (Cat.new "Shadow" false) = "MEOW! (street cat attitude)" :=
  ⟨fun _ => rfl, rfl, rfl⟩

/-- C6: for every state of each of the four variants implementing Animal,
describe equals the concatenation of name, the text says-colon, and speak;
no instance overrides the default. -/
theorem describe_is_default_concatenation :
    (∀ d : Dog, Animal.describe d = Animal.name d ++ " says: " ++ Animal.speak d) ∧
    (∀ c : Cat, Animal.describe c = Animal.name c ++ " says: " ++ Animal.speak c) ∧
    (∀ u : Duck, Animal.describe u = Animal.name u ++ " says: " ++ Animal.speak u) ∧
    (∀ h : Horse, Animal.describe h = Animal.name h ++ " says: " ++ Animal.speak h) :=
  ⟨fun d => by rw [String.append_assoc]; rfl,
   fun c => by rw [String.append_assoc]; rfl,
   fun u => by rw [String.append_assoc]; rfl,
   fun h => by rw [String.append_assoc]; rfl⟩

/-- C7: Horse walk delegates to the embedded base whose leg count is fixed
to 4 at construction, and gallop reports the stored speed; including the
concrete Spirit, 35 case. -/
theorem horse_walk_and_gallop :
    (∀ (n : String) (s : Nat), (Horse.new n s).walk = n ++ " walks on 4 legs") ∧
    (∀ (n : String) (s : Nat),
      (Horse.new n s).gallop = n ++ " gallops at " ++ toString s ++ " mph!") ∧
    (Horse.new "Spirit" 35).walk = "Spirit walks on 4 legs" ∧
    (Horse.new "Spirit" 35).gallop = "Spirit gallops at 35 mph!" :=
  ⟨fun n s => by
    have hclosed : (" walks on " ++ (toString (4 : Nat) ++ " legs")) = " walks on 4 legs" := by
      decide
    show n ++ (" walks on " ++ (toString (4 : Nat) ++ " legs")) = n ++ " walks on 4 legs"
    rw [hclosed],
   fun n s => by
    simp [Horse.gallop, Horse.new, AnimalBase.new, String.append_assoc],
   by decide, by decide⟩

/-- C8: Duck overrides the Swimmer default with a name-specific sentence;
for every name n the result names n, and at Donald it is the concrete
paddling sentence. -/
theorem duck_swim_override :
    (∀ n : String, Swimmer.swim (Duck.new n) = n ++ " paddles gracefully across the pond") ∧
    Swimmer.swim (Duck.new "Donald") = "Donald paddles gracefully across the pond" :=
  ⟨fun _ => rfl, rfl⟩

/-- C9: for every value of each variant, speak dispatched dynamically
through a trait object equals speak dispatched statically at the concrete
type (the call made by make_sound); the dispatch mechanism does not change
the observable output. -/
theorem dispatch_mechanism_equivalence :
    (∀ d : Dog, DynAnimal.speak d.toDyn = Animal.speak d) ∧
    (∀ c : Cat, DynAnimal.speak c.toDyn = Animal.speak c) ∧
    (∀ u : Duck, DynAnimal.speak u.toDyn = Animal.speak u) ∧
    (∀ h : Horse, DynAnimal.speak h.toDyn = Animal.speak h) :=
  ⟨fun _ => rfl, fun _ => rfl, fun _ => rfl, fun _ => rfl⟩

/-- C10: Dog.new validates nothing: for every name, age and breed the
stored age is returned verbatim by get_age, so a Dog with age above 25,
such as age 100, is constructible through the public interface. -/
theorem dog_new_stores_age_unvalidated :
    (∀ (n : String) (a : Nat) (b : String), (Dog.new n a b).get_age = a) ∧
    (Dog.new "Rex" 100 "German Shepherd").get_age = 100 ∧
    25 < (Dog.new "Rex" 100 "German Shepherd").get_age :=
  ⟨fun _ _ _ => rfl, rfl, by decide⟩
